import Mathlib

set_option maxRecDepth 100000

/-
Verification of the game-state core of baremetal_snake (src/lib.rs).

The embedding below translates the Rust source into Lean:
* machine integers: `food_eaten : u32` and `countdown : usize` are modelled
  as `Nat` (every reachable run keeps `food_eaten ≤ 30`, far from overflow,
  and `countdown ≤ 3`); `Position`'s `i16` coordinates are modelled as `Int`
  (all coordinates handled by the code stay within `[-1, 80]`, far from the
  `i16` range ends, so two's-complement wrapping never occurs);
* the board `cells : [[Cell; WIDTH]; HEIGHT]` is modelled as a total function
  `Nat → Nat → Cell`; all writes performed by the code use in-bounds indices
  (proved below for the respawn write), so the total model is exact;
* the `panic!` arm of `translate_icon` is modelled as a no-op; the theorem
  `start_rows_check` shows every character of the START map hits a
  recognized arm, so the arm is unreachable on this program's data;
* `DecodedKey` / `KeyCode` from the pc_keyboard crate are modelled with the
  constructors the code pattern-matches on, plus `other` for the remaining
  key codes, which the code treats uniformly through wildcard arms.
-/

namespace BaremetalSnake

/-- Cell kinds of the board, from `enum Cell` in src/lib.rs. -/
inductive Cell
  | Food
  | Empty
  | Wall
  | Body
deriving DecidableEq

/-- Compass directions, from `enum Dir` in src/lib.rs. -/
inductive Dir
  | N
  | S
  | E
  | W
deriving DecidableEq

/-- Rotate 90 degrees left, from `Dir::left`. -/
def Dir.left : Dir → Dir
  | Dir.N => Dir.W
  | Dir.S => Dir.E
  | Dir.E => Dir.N
  | Dir.W => Dir.S

/-- Rotate 90 degrees right, from `Dir::right`. -/
def Dir.right : Dir → Dir
  | Dir.N => Dir.E
  | Dir.S => Dir.W
  | Dir.E => Dir.S
  | Dir.W => Dir.N

/-- Direction from a head glyph, from `impl From<char> for Dir`.  The source
panics on any other character; that arm is modelled by the (unreachable)
default `Dir.N` — the only call site passes one of the four glyphs. -/
def Dir.fromChar (icon : Char) : Dir :=
  if icon = '^' then Dir.S
  else if icon = 'v' then Dir.N
  else if icon = '>' then Dir.W
  else if icon = '<' then Dir.E
  else Dir.N

/-- Grid coordinate, from `struct Position` (fields `col, row : i16`). -/
structure Position where
  col : Int
  row : Int
deriving DecidableEq

/-- Bounds check, from `Position::is_legal`; `W`, `H` are the WIDTH/HEIGHT
const generics (80 and 23 for the game instance `MainGame`). -/
def Position.is_legal (W H : Nat) (p : Position) : Bool :=
  decide (0 ≤ p.col ∧ p.col < (W : Int) ∧ 0 ≤ p.row ∧ p.row < (H : Int))

/-- Coordinate pair as array indices, from `Position::row_col` (`as usize`
casts; exact for the legal—hence non-negative—positions it is applied to). -/
def Position.row_col (p : Position) : Nat × Nat :=
  (p.row.toNat, p.col.toNat)

/-- Adjacent position in a direction, from `Position::neighbor`
(no clamping; may be out of bounds). -/
def Position.neighbor (p : Position) (d : Dir) : Position :=
  match d with
  | Dir.N => { row := p.row - 1, col := p.col }
  | Dir.S => { row := p.row + 1, col := p.col }
  | Dir.E => { row := p.row, col := p.col + 1 }
  | Dir.W => { row := p.row, col := p.col - 1 }

/-- Snake head state, from `struct Snake` (field `open` renamed
`mouth_open`; `open` is a Lean keyword). -/
structure Snake where
  pos : Position
  dir : Dir
  mouth_open : Bool
deriving DecidableEq

/-- Constructor, from `Snake::new`. -/
def Snake.new (pos : Position) (icon : Char) : Snake :=
  { pos := pos, dir := Dir.fromChar icon, mouth_open := true }

/-- Cosmetic blink toggle, from `Snake::tick`. -/
def Snake.tick (s : Snake) : Snake :=
  { s with mouth_open := !s.mouth_open }

/-- Game status, from `enum Status`. -/
inductive Status
  | Normal
  | Over
deriving DecidableEq

/-- Key codes the core pattern-matches on, from the pc_keyboard `KeyCode`
enum; `other` stands for every remaining key code, all of which the code
routes through wildcard arms uniformly. -/
inductive KeyCode
  | S
  | O
  | I
  | ArrowUp
  | ArrowDown
  | ArrowLeft
  | ArrowRight
  | other (code : Nat)
deriving DecidableEq

/-- Decoded key events, from the pc_keyboard `DecodedKey` enum. -/
inductive DecodedKey
  | raw (k : KeyCode)
  | unicode (c : Char)
deriving DecidableEq

/-- Board contents as a total function on (row, col) indices. -/
def Board : Type := Nat → Nat → Cell

/-- Single-cell write `cells[row][col] = v`. -/
def setCell (b : Board) (row col : Nat) (v : Cell) : Board :=
  fun r c => if r = row ∧ c = col then v else b r c

/-- VGA text width, from `BUFFER_WIDTH` in pluggable_interrupt_os. -/
def BUFFER_WIDTH : Nat := 80

/-- VGA text height, from `BUFFER_HEIGHT` in pluggable_interrupt_os. -/
def BUFFER_HEIGHT : Nat := 25

/-- Game board height, from `const GAME_HEIGHT: usize = BUFFER_HEIGHT - 2`. -/
def GAME_HEIGHT : Nat := BUFFER_HEIGHT - 2

/-- Ticks per game step, from `const UPDATE_FREQUENCY: usize = 3`. -/
def UPDATE_FREQUENCY : Nat := 3

/-- Whole game state, from `struct SnakeGame`, at the `MainGame`
instantiation `SnakeGame<80, 23>`. -/
structure SnakeGame where
  cells : Board
  snake : Snake
  status : Status
  food_eaten : Nat
  countdown : Nat
  last_key : Option Dir

/-- The initial map literal, from `const START`, copied verbatim
(including the five-space indentation that `reset` trims away). -/
def START : String :=
  "################################################################################
     #                                                                              #
     #                                                                              #
     #                                                                              #
     #                                                                              #
     #                                                                              #
     #                                                                              #
     #                                                                              #
     #                                                                              #
     #                                                                              #
     #                                       <                                      #
     #                                                                              #
     #                                                                              #
     #                                                                              #
     #                                                                              #
     #                                                                              #
     #                  *                                                           #
     #                                                                              #
     #                                                                              #
     #                                                                              #
     #                                                                              #
     #                                                                              #
     ################################################################################"

/-- Split a character list at every newline, mirroring Rust's
`str::split('\n')` (keeps empty segments). -/
def splitNl : List Char → List Char → List (List Char)
  | [], acc => [acc.reverse]
  | ch :: rest, acc =>
      if ch = '\n' then acc.reverse :: splitNl rest []
      else splitNl rest (ch :: acc)

/-- Strip leading and trailing whitespace, mirroring Rust's `str::trim`. -/
def trimChars (cs : List Char) : List Char :=
  ((cs.dropWhile Char.isWhitespace).reverse.dropWhile Char.isWhitespace).reverse

/-- The lines of the START literal. -/
def startRows : List (List Char) := splitNl START.data []

/-- One parsing step, from `SnakeGame::translate_icon`.  The `panic!` arm on
unrecognized characters is modelled as a no-op; `start_rows_check` proves it
is unreachable for the START map. -/
def translate_icon (g : SnakeGame) (row col : Nat) (icon : Char) : SnakeGame :=
  if icon = '#' then { g with cells := setCell g.cells row col Cell.Wall }
  else if icon = '*' then { g with cells := setCell g.cells row col Cell.Food }
  else if icon = '>' ∨ icon = '<' ∨ icon = '^' ∨ icon = 'v' then
    { g with snake := Snake.new { col := (col : Int), row := (row : Int) } icon }
  else if icon = ' ' then { g with cells := setCell g.cells row col Cell.Empty }
  else if icon = 'o' then { g with cells := setCell g.cells row col Cell.Body }
  else g

/-- The cell value `translate_icon` writes at its position: `none` for the
head glyphs (which only set the snake) and for the panicking arm. -/
def iconCell (icon : Char) : Option Cell :=
  if icon = '#' then some Cell.Wall
  else if icon = '*' then some Cell.Food
  else if icon = '>' ∨ icon = '<' ∨ icon = '^' ∨ icon = 'v' then none
  else if icon = ' ' then some Cell.Empty
  else if icon = 'o' then some Cell.Body
  else none

/-- Inner loop of `SnakeGame::reset`: translate the characters of one line,
with their column indices. -/
def processRow : SnakeGame → Nat → Nat → List Char → SnakeGame
  | g, _, _, [] => g
  | g, row, col, ch :: rest => processRow (translate_icon g row col ch) row (col + 1) rest

/-- Outer loop of `SnakeGame::reset`: translate the trimmed lines, with
their row indices. -/
def processLines : SnakeGame → Nat → List (List Char) → SnakeGame
  | g, _, [] => g
  | g, row, ls :: rest => processLines (processRow g row 0 (trimChars ls)) (row + 1) rest

/-- Full reset, from `SnakeGame::reset`: re-parse the START map, then set
status to Normal, zero the score and clear the buffered key. -/
def SnakeGame.reset (g : SnakeGame) : SnakeGame :=
  let g2 := processLines g 0 startRows
  { cells := g2.cells, snake := g2.snake, status := Status.Normal,
    food_eaten := 0, countdown := g2.countdown, last_key := none }

/-- The state `SnakeGame::new` builds before calling `reset`: an all-Food
board and a placeholder snake. -/
def initBase : SnakeGame :=
  { cells := fun _ _ => Cell.Food,
    snake := Snake.new { col := 0, row := 0 } '>',
    status := Status.Normal, food_eaten := 0,
    countdown := UPDATE_FREQUENCY, last_key := none }

/-- Construction, from `SnakeGame::new` (which immediately resets). -/
def SnakeGame.new : SnakeGame := SnakeGame.reset initBase

/-- Score accessor, from `SnakeGame::score`. -/
def SnakeGame.score (g : SnakeGame) : Nat := g.food_eaten

/-- Countdown throttle, from `SnakeGame::countdown_complete`; returns the
boolean result paired with the successor state. -/
def SnakeGame.countdown_complete (g : SnakeGame) : Bool × SnakeGame :=
  if g.countdown = 0 then (true, { g with countdown := UPDATE_FREQUENCY })
  else (false, { g with countdown := g.countdown - 1 })

/-- Food-respawn coordinate (row, col) as computed inside
`SnakeGame::move_to` from the pre- and post-increment scores
(`testnum_col = 80`, `testnum_row = 20`, `change = score + 5` before the
match then `change += 333` in the Food arm). -/
def respawn_coord (score_before score_after : Nat) : Nat × Nat :=
  let testnum_col := 80
  let testnum_row := 20
  let change := score_before + 5 + 333
  let multiple_col := testnum_col - (change * score_after) % testnum_col
  let multiple_col2 := if multiple_col = 80 then multiple_col - 33 else multiple_col
  let multiple_row := testnum_row - (change * score_after) % testnum_row
  (multiple_row, multiple_col2)

/-- Modelled from the spec (section 4.4 pseudocode), for comparison with the
code's `respawn_coord`: `change = (score_before_increment + 5) + 333`,
`col = 80 - ((change * score_after) mod 80)` reduced by 33 when it equals
80, `row = 20 - ((change * score_after) mod 20)`. -/
def spec_respawn (score_before score_after : Nat) : Nat × Nat :=
  let change := (score_before + 5) + 333
  let col := 80 - (change * score_after) % 80
  let col2 := if col = 80 then col - 33 else col
  let row := 20 - (change * score_after) % 20
  (row, col2)

/-- Head movement, from `SnakeGame::move_to`: move the head, and if the
target cell held Food, eat it, check the win threshold, and respawn food at
the deterministic coordinate. -/
def SnakeGame.move_to (g : SnakeGame) (neighbor : Position) (dir : Dir) : SnakeGame :=
  let g1 := { g with snake := { g.snake with pos := neighbor, dir := dir } }
  let row := neighbor.row_col.1
  let col := neighbor.row_col.2
  match g1.cells row col with
  | Cell.Food =>
      let g2 := { g1 with food_eaten := g1.food_eaten + 1 }
      let g3 := if 30 ≤ g2.food_eaten then { g2 with status := Status.Over } else g2
      let g4 := { g3 with cells := setCell g3.cells row col Cell.Empty }
      let rc := respawn_coord g.food_eaten g2.food_eaten
      { g4 with cells := setCell g4.cells rc.1 rc.2 Cell.Food }
  | _ => g1

/-- Movement resolution, from `SnakeGame::resolve_move`: consume the
buffered direction; if the target is legal and not a Wall, move (and maybe
eat); then, re-reading the target cell, a Wall or Body there ends the run. -/
def SnakeGame.resolve_move (g : SnakeGame) : SnakeGame :=
  match g.last_key with
  | none => g
  | some dir =>
      let neighbor := g.snake.pos.neighbor dir
      if neighbor.is_legal BUFFER_WIDTH GAME_HEIGHT then
        let row := neighbor.row_col.1
        let col := neighbor.row_col.2
        let g1 := if g.cells row col ≠ Cell.Wall then g.move_to neighbor dir else g
        if g1.cells row col = Cell.Wall ∨ g1.cells row col = Cell.Body then
          { g1 with status := Status.Over }
        else g1
      else g

/-- One game step, from `SnakeGame::update`: resolve movement, clear the
buffered key, toggle the blink flag. -/
def SnakeGame.update (g : SnakeGame) : SnakeGame :=
  let g1 := g.resolve_move
  let g2 := { g1 with last_key := none }
  { g2 with snake := g2.snake.tick }

/-- Key handling, from `SnakeGame::key`. -/
def SnakeGame.key (g : SnakeGame) (k : DecodedKey) : SnakeGame :=
  match g.status with
  | Status.Over =>
      match k with
      | DecodedKey.raw KeyCode.S => g.reset
      | DecodedKey.unicode c => if c = 's' then g.reset else g
      | _ => g
  | Status.Normal =>
      match k with
      | DecodedKey.raw KeyCode.O => { g with status := Status.Over }
      | DecodedKey.raw KeyCode.I => { g with cells := setCell g.cells 15 40 Cell.Food }
      | DecodedKey.unicode 'o' => { g with status := Status.Over }
      | DecodedKey.unicode 'i' => { g with cells := setCell g.cells 15 40 Cell.Food }
      | _ =>
          let key2 : Option Dir :=
            match k with
            | DecodedKey.raw kc =>
                match kc with
                | KeyCode.ArrowUp => some Dir.N
                | KeyCode.ArrowDown => some Dir.S
                | KeyCode.ArrowLeft => some Dir.W
                | KeyCode.ArrowRight => some Dir.E
                | _ => none
            | DecodedKey.unicode c =>
                if c = 'w' then some Dir.N
                else if c = 'a' then some Dir.W
                else if c = 's' then some Dir.S
                else if c = 'd' then some Dir.E
                else none
          match key2 with
          | some _ => { g with last_key := key2 }
          | none => g

/-- The cell a reset writes at (r, c): the translation of character c of
trimmed line r of the START literal, if any. -/
def parsedCell (r c : Nat) : Option Cell :=
  (startRows.get? r).bind fun ls => ((trimChars ls).get? c).bind iconCell

/-- Scan of one trimmed line: every character except the head glyph at
(10, 40) must write a cell. -/
def checkChars : Nat → Nat → List Char → Bool
  | _, _, [] => true
  | r, c, ch :: rest =>
      (decide (r = 10 ∧ c = 40) || (iconCell ch).isSome) && checkChars r (c + 1) rest

/-- Scan of all trimmed lines: 23 rows of 80 characters, each passing
`checkChars`. -/
def checkRows : Nat → List (List Char) → Bool
  | r, [] => decide (r = 23)
  | r, ls :: rest =>
      (decide ((trimChars ls).length = 80) && checkChars r 0 (trimChars ls)) &&
        checkRows (r + 1) rest

/-- State before the k-th `countdown_complete` call, counting from a
freshly constructed game. -/
def tick_state : Nat → SnakeGame
  | 0 => SnakeGame.new
  | k + 1 => ((tick_state k).countdown_complete).2

/-- Result of the k-th `countdown_complete` call, counting from a freshly
constructed game. -/
def tick_result (k : Nat) : Bool := ((tick_state k).countdown_complete).1

/-- Concrete state with a Body cell directly East of the head (row 5,
col 6; head at row 5, col 5), with East buffered. -/
def g_body : SnakeGame :=
  { cells := fun r c => if r = 5 ∧ c = 6 then Cell.Body else Cell.Empty,
    snake := { pos := { col := 5, row := 5 }, dir := Dir.E, mouth_open := true },
    status := Status.Normal, food_eaten := 0, countdown := 0,
    last_key := some Dir.E }

/-- Concrete state with a Wall cell directly East of the head (row 5,
col 6; head at row 5, col 5), with East buffered. -/
def g_wall : SnakeGame :=
  { cells := fun r c => if r = 5 ∧ c = 6 then Cell.Wall else Cell.Empty,
    snake := { pos := { col := 5, row := 5 }, dir := Dir.E, mouth_open := true },
    status := Status.Normal, food_eaten := 0, countdown := 0,
    last_key := some Dir.E }

/-- Concrete state at score 0 whose only Food sits at (2, 62) — exactly the
respawn coordinate for the step from score 0 to score 1 — with the head at
(2, 61) and East buffered. -/
def g_food : SnakeGame :=
  { cells := fun r c => if r = 2 ∧ c = 62 then Cell.Food else Cell.Empty,
    snake := { pos := { col := 61, row := 2 }, dir := Dir.E, mouth_open := true },
    status := Status.Normal, food_eaten := 0, countdown := 0,
    last_key := some Dir.E }

/-- Concrete state at score 0 with Food at (5, 6), head at (5, 5) and East
buffered; here the respawn coordinate (2, 62) differs from the eaten cell. -/
def g_eat : SnakeGame :=
  { cells := fun r c => if r = 5 ∧ c = 6 then Cell.Food else Cell.Empty,
    snake := { pos := { col := 5, row := 5 }, dir := Dir.E, mouth_open := true },
    status := Status.Normal, food_eaten := 0, countdown := 0,
    last_key := some Dir.E }

/-- Concrete state at score 0 with Food at (5, 6), used to instantiate the
food-placement theorem on `move_to` directly. -/
def g_move : SnakeGame :=
  { cells := fun r c => if r = 5 ∧ c = 6 then Cell.Food else Cell.Empty,
    snake := { pos := { col := 5, row := 5 }, dir := Dir.E, mouth_open := true },
    status := Status.Normal, food_eaten := 0, countdown := 0,
    last_key := some Dir.E }

/-- Concrete state with the head at the grid corner (row 0, col 0) and West
buffered, so the buffered direction's target is out of bounds. -/
def g_oob : SnakeGame :=
  { cells := fun _ _ => Cell.Empty,
    snake := { pos := { col := 0, row := 0 }, dir := Dir.W, mouth_open := true },
    status := Status.Normal, food_eaten := 0, countdown := 0,
    last_key := some Dir.W }

/-- Concrete game-over state with a nonzero score. -/
def g_over : SnakeGame :=
  { cells := fun _ _ => Cell.Empty,
    snake := { pos := { col := 5, row := 5 }, dir := Dir.E, mouth_open := true },
    status := Status.Over, food_eaten := 5, countdown := 0,
    last_key := none }

/-- Reachable state obtained from a fresh game by: buffering East, one game
step (head moves to (10, 41)), buffering West, one game step (head moves
back onto (10, 40), eating the Food left under the initial head position),
then the debug force-over key. -/
def g_run : SnakeGame :=
  ((((SnakeGame.new.key (DecodedKey.unicode 'd')).update).key
      (DecodedKey.unicode 'a')).update).key (DecodedKey.unicode 'o')

theorem setCell_eq (b : Board) (row col : Nat) (v : Cell) : setCell b row col v row col = v := by
  simp [setCell]

theorem setCell_ne (b : Board) (row col : Nat) (v : Cell) (r c : Nat) (h : ¬(r = row ∧ c = col)) :
    setCell b row col v r c = b r c := by
  simp [setCell, h]

theorem translate_icon_cells (g : SnakeGame) (row col : Nat) (ch : Char) (r c : Nat) :
    (translate_icon g row col ch).cells r c
      = (if r = row ∧ c = col then iconCell ch else none).getD (g.cells r c) := by
  unfold translate_icon iconCell
  split_ifs with h1 h2 h3 h4 h5 <;> simp_all [setCell]

theorem processRow_cells (cs : List Char) (g : SnakeGame) (row col r c : Nat) :
    (processRow g row col cs).cells r c
      = (if r = row ∧ col ≤ c then (cs.get? (c - col)).bind iconCell else none).getD
          (g.cells r c) := by
  induction cs generalizing g col with
  | nil => simp [processRow]
  | cons ch rest ih =>
      rw [processRow, ih, translate_icon_cells]
      by_cases hr : r = row
      · subst hr
        rcases Nat.lt_trichotomy c col with hlt | heq | hgt
        · have n1 : ¬(col ≤ c) := by omega
          have n2 : ¬(col + 1 ≤ c) := by omega
          have n3 : ¬(c = col) := by omega
          simp [n1, n2, n3]
        · subst heq
          have n2 : ¬(c + 1 ≤ c) := by omega
          simp [n2, Nat.sub_self]
        · have y1 : col ≤ c := by omega
          have y2 : col + 1 ≤ c := by omega
          have n3 : ¬(c = col) := by omega
          have hs : c - col = (c - (col + 1)) + 1 := by omega
          simp [y1, y2, n3, hs]
      · simp [hr]

theorem processLines_cells (lss : List (List Char)) (g : SnakeGame) (row r c : Nat) :
    (processLines g row lss).cells r c
      = (if row ≤ r then
            (lss.get? (r - row)).bind fun ls => ((trimChars ls).get? c).bind iconCell
          else none).getD (g.cells r c) := by
  induction lss generalizing g row with
  | nil => simp [processLines]
  | cons ls rest ih =>
      rw [processLines, ih, processRow_cells]
      rcases Nat.lt_trichotomy r row with hlt | heq | hgt
      · have n1 : ¬(row ≤ r) := by omega
        have n2 : ¬(row + 1 ≤ r) := by omega
        have n3 : ¬(r = row) := by omega
        simp [n1, n2, n3]
      · subst heq
        have n2 : ¬(r + 1 ≤ r) := by omega
        simp [n2, Nat.sub_self]
      · have y1 : row ≤ r := by omega
        have y2 : row + 1 ≤ r := by omega
        have n3 : ¬(r = row) := by omega
        have hs : r - row = (r - (row + 1)) + 1 := by omega
        simp [y1, y2, n3, hs]

theorem reset_cells (g : SnakeGame) (r c : Nat) :
    (g.reset).cells r c = (parsedCell r c).getD (g.cells r c) := by
  show (processLines g 0 startRows).cells r c = _
  rw [processLines_cells]
  simp [parsedCell]

theorem new_countdown : SnakeGame.new.countdown = UPDATE_FREQUENCY := by decide

theorem new_cells (r c : Nat) : SnakeGame.new.cells r c = (parsedCell r c).getD Cell.Food := by
  show (SnakeGame.reset initBase).cells r c = _
  rw [reset_cells]
  rfl

theorem checkChars_sound (cs : List Char) (r c0 : Nat) (h : checkChars r c0 cs = true)
    (j : Nat) (ch : Char) (hj : cs.get? j = some ch) (hne : ¬(r = 10 ∧ c0 + j = 40)) :
    (iconCell ch).isSome = true := by
  induction cs generalizing c0 j with
  | nil => simp at hj
  | cons ch0 rest ih =>
      rw [checkChars, Bool.and_eq_true] at h
      obtain ⟨h1, h2⟩ := h
      cases j with
      | zero =>
          simp only [List.get?_cons_zero, Option.some.injEq] at hj
          subst hj
          rw [Bool.or_eq_true, decide_eq_true_eq] at h1
          rcases h1 with h1 | h1
          · exact absurd ⟨h1.1, by omega⟩ hne
          · exact h1
      | succ j' =>
          simp only [List.get?_cons_succ] at hj
          exact ih (c0 + 1) h2 j' hj (by intro hx; exact hne ⟨hx.1, by omega⟩)

theorem checkRows_len (lss : List (List Char)) (r0 : Nat) (h : checkRows r0 lss = true) :
    r0 + lss.length = 23 := by
  induction lss generalizing r0 with
  | nil =>
      rw [checkRows, decide_eq_true_eq] at h
      simpa using h
  | cons ls rest ih =>
      rw [checkRows, Bool.and_eq_true] at h
      have := ih (r0 + 1) h.2
      simp only [List.length_cons]
      omega

theorem checkRows_sound (lss : List (List Char)) (r0 : Nat) (h : checkRows r0 lss = true)
    (i : Nat) (ls : List Char) (hi : lss.get? i = some ls) :
    (trimChars ls).length = 80 ∧ checkChars (r0 + i) 0 (trimChars ls) = true := by
  induction lss generalizing r0 i with
  | nil => simp at hi
  | cons ls0 rest ih =>
      rw [checkRows, Bool.and_eq_true, Bool.and_eq_true] at h
      obtain ⟨⟨hlen, hch⟩, hrest⟩ := h
      cases i with
      | zero =>
          simp only [List.get?_cons_zero, Option.some.injEq] at hi
          subst hi
          exact ⟨by exact_mod_cast decide_eq_true_eq.mp hlen, by simpa using hch⟩
      | succ i' =>
          simp only [List.get?_cons_succ] at hi
          have := ih (r0 + 1) hrest i' hi
          constructor
          · exact this.1
          · have e : r0 + 1 + i' = r0 + (i' + 1) := by omega
            rw [← e]
            exact this.2

theorem start_rows_check : checkRows 0 startRows = true := by decide

theorem parsedCell_head : parsedCell 10 40 = none := by decide

theorem parsedCell_isSome (r c : Nat) (hr : r < 23) (hc : c < 80)
    (hne : ¬(r = 10 ∧ c = 40)) : (parsedCell r c).isSome = true := by
  have hlen : startRows.length = 23 := by
    have := checkRows_len startRows 0 start_rows_check
    omega
  have hr' : r < startRows.length := by omega
  obtain ⟨ls, hls⟩ : ∃ ls, startRows.get? r = some ls :=
    ⟨startRows.get ⟨r, hr'⟩, List.get?_eq_get hr'⟩
  obtain ⟨hl80, hcheck⟩ := checkRows_sound startRows 0 start_rows_check r ls hls
  have hc' : c < (trimChars ls).length := by omega
  obtain ⟨ch, hch⟩ : ∃ ch, (trimChars ls).get? c = some ch :=
    ⟨(trimChars ls).get ⟨c, hc'⟩, List.get?_eq_get hc'⟩
  have hic := checkChars_sound (trimChars ls) r 0 (by simpa using hcheck) c ch hch
    (by simpa using hne)
  unfold parsedCell
  rw [hls]
  simp only [Option.some_bind]
  rw [hch]
  simp only [Option.some_bind]
  exact hic

theorem respawn_coord_eq_spec (b a : Nat) : respawn_coord b a = spec_respawn b a := rfl

theorem move_to_food (g : SnakeGame) (n : Position) (d : Dir)
    (h : g.cells n.row_col.1 n.row_col.2 = Cell.Food) :
    g.move_to n d =
      { cells := setCell (setCell g.cells n.row_col.1 n.row_col.2 Cell.Empty)
            (respawn_coord g.food_eaten (g.food_eaten + 1)).1
            (respawn_coord g.food_eaten (g.food_eaten + 1)).2 Cell.Food,
        snake := { g.snake with pos := n, dir := d },
        status := if 30 ≤ g.food_eaten + 1 then Status.Over else g.status,
        food_eaten := g.food_eaten + 1,
        countdown := g.countdown,
        last_key := g.last_key } := by
  unfold SnakeGame.move_to
  dsimp only
  rw [h]
  dsimp only
  split_ifs with h30 <;> rfl

theorem move_to_body (g : SnakeGame) (n : Position) (d : Dir)
    (h : g.cells n.row_col.1 n.row_col.2 = Cell.Body) :
    g.move_to n d = { g with snake := { g.snake with pos := n, dir := d } } := by
  unfold SnakeGame.move_to
  dsimp only
  rw [h]

theorem update_cells (g : SnakeGame) : (g.update).cells = g.resolve_move.cells := rfl

theorem update_snake_pos (g : SnakeGame) :
    (g.update).snake.pos = g.resolve_move.snake.pos := rfl

theorem update_snake_dir (g : SnakeGame) :
    (g.update).snake.dir = g.resolve_move.snake.dir := rfl

theorem update_mouth (g : SnakeGame) :
    (g.update).snake.mouth_open = !g.resolve_move.snake.mouth_open := rfl

theorem update_status (g : SnakeGame) : (g.update).status = g.resolve_move.status := rfl

theorem update_food (g : SnakeGame) : (g.update).food_eaten = g.resolve_move.food_eaten := rfl

theorem update_last_key (g : SnakeGame) : (g.update).last_key = none := rfl

theorem resolve_move_wall (g : SnakeGame) (d : Dir)
    (h1 : g.last_key = some d)
    (h2 : (g.snake.pos.neighbor d).is_legal BUFFER_WIDTH GAME_HEIGHT = true)
    (h3 : g.cells (g.snake.pos.neighbor d).row_col.1 (g.snake.pos.neighbor d).row_col.2
            = Cell.Wall) :
    g.resolve_move = { g with status := Status.Over } := by
  unfold SnakeGame.resolve_move
  rw [h1]
  dsimp only
  rw [if_pos h2]
  have hcond : ¬(g.cells (g.snake.pos.neighbor d).row_col.1
      (g.snake.pos.neighbor d).row_col.2 ≠ Cell.Wall) := by
    rw [h3]
    exact fun hk => hk rfl
  rw [if_neg hcond, if_pos (Or.inl h3), h1]

theorem resolve_move_body (g : SnakeGame) (d : Dir)
    (h1 : g.last_key = some d)
    (h2 : (g.snake.pos.neighbor d).is_legal BUFFER_WIDTH GAME_HEIGHT = true)
    (h3 : g.cells (g.snake.pos.neighbor d).row_col.1 (g.snake.pos.neighbor d).row_col.2
            = Cell.Body) :
    g.resolve_move =
      { g with snake := { g.snake with pos := g.snake.pos.neighbor d, dir := d },
               status := Status.Over } := by
  unfold SnakeGame.resolve_move
  rw [h1]
  dsimp only
  rw [if_pos h2]
  have hcond : g.cells (g.snake.pos.neighbor d).row_col.1
      (g.snake.pos.neighbor d).row_col.2 ≠ Cell.Wall := by
    rw [h3]
    exact fun hk => nomatch hk
  rw [if_pos hcond, move_to_body g _ d h3]
  rw [if_pos (Or.inr h3), h1]

theorem resolve_move_oob (g : SnakeGame) (d : Dir)
    (h1 : g.last_key = some d)
    (h2 : (g.snake.pos.neighbor d).is_legal BUFFER_WIDTH GAME_HEIGHT = false) :
    g.resolve_move = g := by
  unfold SnakeGame.resolve_move
  rw [h1]
  dsimp only
  rw [if_neg (by rw [h2]; exact fun hk => nomatch hk)]

theorem resolve_move_eat (g : SnakeGame) (d : Dir)
    (h1 : g.last_key = some d)
    (h2 : (g.snake.pos.neighbor d).is_legal BUFFER_WIDTH GAME_HEIGHT = true)
    (h3 : g.cells (g.snake.pos.neighbor d).row_col.1 (g.snake.pos.neighbor d).row_col.2
            = Cell.Food)
    (hne : ¬((g.snake.pos.neighbor d).row_col.1
              = (respawn_coord g.food_eaten (g.food_eaten + 1)).1 ∧
             (g.snake.pos.neighbor d).row_col.2
              = (respawn_coord g.food_eaten (g.food_eaten + 1)).2)) :
    g.resolve_move = g.move_to (g.snake.pos.neighbor d) d := by
  unfold SnakeGame.resolve_move
  rw [h1]
  dsimp only
  rw [if_pos h2]
  have hcond : g.cells (g.snake.pos.neighbor d).row_col.1
      (g.snake.pos.neighbor d).row_col.2 ≠ Cell.Wall := by
    rw [h3]
    exact fun hk => nomatch hk
  rw [if_pos hcond]
  have hval : (g.move_to (g.snake.pos.neighbor d) d).cells
      (g.snake.pos.neighbor d).row_col.1 (g.snake.pos.neighbor d).row_col.2
      = Cell.Empty := by
    rw [move_to_food g _ d h3]
    dsimp only
    rw [setCell_ne _ _ _ _ _ _ hne, setCell_eq]
  rw [if_neg (by rw [hval]; exact fun hk => by rcases hk with hk | hk <;> exact nomatch hk)]

theorem tick_countdown (k : Nat) : (tick_state k).countdown = 3 - k % 4 := by
  induction k with
  | zero =>
      have h := new_countdown
      simp only [tick_state]
      rw [h]
      simp only [UPDATE_FREQUENCY]
  | succ k ih =>
      rw [tick_state]
      unfold SnakeGame.countdown_complete
      split_ifs with h0
      · rw [ih] at h0
        dsimp only
        simp only [UPDATE_FREQUENCY]
        omega
      · rw [ih] at h0
        dsimp only
        rw [ih]
        omega

theorem tick_result_eq (k : Nat) : tick_result k = decide (k % 4 = 3) := by
  unfold tick_result SnakeGame.countdown_complete
  rw [tick_countdown]
  split_ifs with h
  · have h3 : k % 4 = 3 := by omega
    simp [h3]
  · have h3 : ¬(k % 4 = 3) := by omega
    simp [h3]

/-- C1 (amended): when the buffered direction's target cell holds Body, the
step ends the run (status becomes Over) and clears the pending direction,
but — unlike Wall — the head DOES move onto the Body cell first:
`resolve_move` calls `move_to` whenever the target is not a Wall, and only
afterwards sets status to Over on seeing Wall or Body at the target. -/
theorem body_collision_step (g : SnakeGame) (d : Dir)
    (h1 : g.last_key = some d)
    (h2 : (g.snake.pos.neighbor d).is_legal BUFFER_WIDTH GAME_HEIGHT = true)
    (h3 : g.cells (g.snake.pos.neighbor d).row_col.1 (g.snake.pos.neighbor d).row_col.2
            = Cell.Body) :
    (g.update).status = Status.Over ∧
    (g.update).snake.pos = g.snake.pos.neighbor d ∧
    (g.update).last_key = none := by
  refine ⟨?_, ?_, ?_⟩
  · rw [update_status, resolve_move_body g d h1 h2 h3]
  · rw [update_snake_pos, resolve_move_body g d h1 h2 h3]
  · exact update_last_key g

/-- C1 counterexample: on a concrete state with a Body cell directly ahead,
the step sets status to Over but the head moves (its position changes),
contradicting the claim that the head position stays unchanged. -/
theorem body_collision_moves_head :
    (g_body.update).status = Status.Over ∧
    ¬((g_body.update).snake.pos = g_body.snake.pos) := by decide

/-- C1 witness: the amended theorem instantiated at the concrete state. -/
theorem body_collision_step_witness :
    (g_body.update).status = Status.Over ∧
    (g_body.update).snake.pos = g_body.snake.pos.neighbor Dir.E ∧
    (g_body.update).last_key = none :=
  body_collision_step g_body Dir.E rfl (by decide) (by decide)

/-- C6: when the buffered direction's target cell holds Wall, the head does
not move, status becomes Over, and the pending direction is cleared. -/
theorem wall_collision_step (g : SnakeGame) (d : Dir)
    (h1 : g.last_key = some d)
    (h2 : (g.snake.pos.neighbor d).is_legal BUFFER_WIDTH GAME_HEIGHT = true)
    (h3 : g.cells (g.snake.pos.neighbor d).row_col.1 (g.snake.pos.neighbor d).row_col.2
            = Cell.Wall) :
    (g.update).snake.pos = g.snake.pos ∧
    (g.update).status = Status.Over ∧
    (g.update).last_key = none := by
  refine ⟨?_, ?_, ?_⟩
  · rw [update_snake_pos, resolve_move_wall g d h1 h2 h3]
  · rw [update_status, resolve_move_wall g d h1 h2 h3]
  · exact update_last_key g

/-- C6 witness: the theorem instantiated at a concrete state with a Wall
directly East of the head. -/
theorem wall_collision_step_witness :
    (g_wall.update).snake.pos = g_wall.snake.pos ∧
    (g_wall.update).status = Status.Over ∧
    (g_wall.update).last_key = none :=
  wall_collision_step g_wall Dir.E rfl (by decide) (by decide)

/-- C10: when the buffered direction's target is out of bounds, the step
changes nothing except discarding the pending direction and toggling the
blink flag: head position and facing, every board cell, the score and the
status are unchanged. -/
theorem oob_step_frame (g : SnakeGame) (d : Dir)
    (h1 : g.last_key = some d)
    (h2 : (g.snake.pos.neighbor d).is_legal BUFFER_WIDTH GAME_HEIGHT = false) :
    (g.update).snake.pos = g.snake.pos ∧
    (g.update).snake.dir = g.snake.dir ∧
    (g.update).cells = g.cells ∧
    (g.update).food_eaten = g.food_eaten ∧
    (g.update).status = g.status ∧
    (g.update).last_key = none ∧
    (g.update).snake.mouth_open = !g.snake.mouth_open := by
  have hres := resolve_move_oob g d h1 h2
  refine ⟨?_, ?_, ?_, ?_, ?_, ?_, ?_⟩
  · rw [update_snake_pos, hres]
  · rw [update_snake_dir, hres]
  · rw [update_cells, hres]
  · rw [update_food, hres]
  · rw [update_status, hres]
  · exact update_last_key g
  · rw [update_mouth, hres]

/-- C10 witness: the theorem instantiated at a concrete state whose head
sits at the (0,0) corner with West buffered. -/
theorem oob_step_frame_witness :
    (g_oob.update).snake.pos = g_oob.snake.pos ∧
    (g_oob.update).snake.dir = g_oob.snake.dir ∧
    (g_oob.update).cells = g_oob.cells ∧
    (g_oob.update).food_eaten = g_oob.food_eaten ∧
    (g_oob.update).status = g_oob.status ∧
    (g_oob.update).last_key = none ∧
    (g_oob.update).snake.mouth_open = !g_oob.snake.mouth_open :=
  oob_step_frame g_oob Dir.W rfl (by decide)

/-- C3 (amended): when the head moves onto a Food cell AND the respawn
coordinate differs from the eaten cell, food_eaten increments by exactly 1,
the eaten cell becomes Empty, exactly the respawn-formula cell becomes Food
(no other cell changes), and if the post-increment score reaches 30 the
status becomes Over on that step.  When the two coordinates coincide the
eaten cell is re-set to Food instead (see the counterexample). -/
theorem eat_food_step (g : SnakeGame) (d : Dir)
    (h1 : g.last_key = some d)
    (h2 : (g.snake.pos.neighbor d).is_legal BUFFER_WIDTH GAME_HEIGHT = true)
    (h3 : g.cells (g.snake.pos.neighbor d).row_col.1 (g.snake.pos.neighbor d).row_col.2
            = Cell.Food)
    (h4 : ¬((g.snake.pos.neighbor d).row_col.1
              = (respawn_coord g.food_eaten (g.food_eaten + 1)).1 ∧
            (g.snake.pos.neighbor d).row_col.2
              = (respawn_coord g.food_eaten (g.food_eaten + 1)).2)) :
    (g.update).food_eaten = g.food_eaten + 1 ∧
    (g.update).cells (g.snake.pos.neighbor d).row_col.1
        (g.snake.pos.neighbor d).row_col.2 = Cell.Empty ∧
    (g.update).cells (respawn_coord g.food_eaten (g.food_eaten + 1)).1
        (respawn_coord g.food_eaten (g.food_eaten + 1)).2 = Cell.Food ∧
    (∀ r c : Nat,
        ¬(r = (g.snake.pos.neighbor d).row_col.1 ∧
          c = (g.snake.pos.neighbor d).row_col.2) →
        ¬(r = (respawn_coord g.food_eaten (g.food_eaten + 1)).1 ∧
          c = (respawn_coord g.food_eaten (g.food_eaten + 1)).2) →
        (g.update).cells r c = g.cells r c) ∧
    (30 ≤ g.food_eaten + 1 → (g.update).status = Status.Over) := by
  have hres := resolve_move_eat g d h1 h2 h3 h4
  have hmv := move_to_food g (g.snake.pos.neighbor d) d h3
  refine ⟨?_, ?_, ?_, ?_, ?_⟩
  · rw [update_food, hres, hmv]
  · rw [update_cells, hres, hmv]
    dsimp only
    rw [setCell_ne _ _ _ _ _ _ h4, setCell_eq]
  · rw [update_cells, hres, hmv]
    dsimp only
    rw [setCell_eq]
  · intro r c hrc hs
    rw [update_cells, hres, hmv]
    dsimp only
    rw [setCell_ne _ _ _ _ _ _ hs, setCell_ne _ _ _ _ _ _ hrc]
  · intro h30
    rw [update_status, hres, hmv]
    dsimp only
    rw [if_pos h30]

/-- C3 counterexample: at score 0 the respawn formula yields (2, 62); on a
concrete state whose Food sits exactly at (2, 62), eating it leaves that
cell holding Food again (never Empty), and no new Food cell appears. -/
theorem eat_food_respawn_clash :
    (g_food.update).food_eaten = 1 ∧ (g_food.update).cells 2 62 = Cell.Food := by decide

/-- C3 witness: the amended theorem instantiated at a concrete state with
Food at (5, 6) (respawn coordinate (2, 62) differs). -/
theorem eat_food_step_witness :
    (g_eat.update).food_eaten = 1 ∧ (g_eat.update).cells 5 6 = Cell.Empty ∧
    (g_eat.update).cells 2 62 = Cell.Food ∧ (g_eat.update).cells 7 7 = g_eat.cells 7 7 := by
  have h := eat_food_step g_eat Dir.E rfl (by decide) (by decide) (by decide)
  exact ⟨h.1, h.2.1, h.2.2.1, h.2.2.2.1 7 7 (by decide) (by decide)⟩

/-- C4: on eating, the board effect of `move_to` is exactly: the eaten cell
set to Empty, then Food placed at the coordinate given by the spec formula
(`spec_respawn`, a pure function of the pre- and post-increment scores and
nothing else). -/
theorem move_to_food_matches_spec (g : SnakeGame) (n : Position) (d : Dir)
    (h : g.cells n.row_col.1 n.row_col.2 = Cell.Food) :
    (g.move_to n d).cells
      = setCell (setCell g.cells n.row_col.1 n.row_col.2 Cell.Empty)
          (spec_respawn g.food_eaten (g.food_eaten + 1)).1
          (spec_respawn g.food_eaten (g.food_eaten + 1)).2 Cell.Food := by
  rw [move_to_food g n d h]
  dsimp only
  rw [respawn_coord_eq_spec]

/-- C4 witness: the theorem instantiated at a concrete state. -/
theorem move_to_food_matches_spec_witness :
    (g_move.move_to { col := 6, row := 5 } Dir.E).cells
      = setCell (setCell g_move.cells (Position.row_col { col := 6, row := 5 }).1
            (Position.row_col { col := 6, row := 5 }).2 Cell.Empty)
          (spec_respawn g_move.food_eaten (g_move.food_eaten + 1)).1
          (spec_respawn g_move.food_eaten (g_move.food_eaten + 1)).2 Cell.Food :=
  move_to_food_matches_spec g_move { col := 6, row := 5 } Dir.E (by decide)

/-- C8: for every score pair (b, b + 1) the respawn coordinate satisfies
2 ≤ row ≤ 20 and (col = 47 or 2 ≤ col ≤ 78): change = b + 338 and b + 1
have opposite parity, so their product is even, making both remainders
even; hence the unchecked write is inside the 80 x 23 board and never on
its perimeter Wall ring. -/
theorem respawn_coord_bounds (b : Nat) :
    2 ≤ (respawn_coord b (b + 1)).1 ∧ (respawn_coord b (b + 1)).1 ≤ 20 ∧
    ((respawn_coord b (b + 1)).2 = 47 ∨
      2 ≤ (respawn_coord b (b + 1)).2 ∧ (respawn_coord b (b + 1)).2 ≤ 78) ∧
    (respawn_coord b (b + 1)).1 < GAME_HEIGHT ∧
    (respawn_coord b (b + 1)).2 < BUFFER_WIDTH := by
  have hpar : ((b + 5 + 333) * (b + 1)) % 2 = 0 := by
    rcases Nat.even_or_odd b with he | ho
    · obtain ⟨m, hm⟩ := he
      have h2 : (b + 5 + 333) % 2 = 0 := by omega
      rw [Nat.mul_mod, h2]
      simp
    · obtain ⟨m, hm⟩ := ho
      have h2 : (b + 1) % 2 = 0 := by omega
      rw [Nat.mul_mod, h2]
      simp
  have h80 : ((b + 5 + 333) * (b + 1)) % 80 % 2 = 0 := by
    rw [Nat.mod_mod_of_dvd _ (by norm_num : (2 : Nat) ∣ 80)]
    exact hpar
  have h20 : ((b + 5 + 333) * (b + 1)) % 20 % 2 = 0 := by
    rw [Nat.mod_mod_of_dvd _ (by norm_num : (2 : Nat) ∣ 20)]
    exact hpar
  simp only [respawn_coord, GAME_HEIGHT, BUFFER_HEIGHT, BUFFER_WIDTH]
  split_ifs with hc <;> omega

/-- C9: for positions that are legal and whose neighbor in direction d is
legal, stepping to the neighbor and back with the 180-degree rotation
(left twice) returns to the original position. -/
theorem neighbor_opposite_cancel (p : Position) (d : Dir)
    (h1 : p.is_legal BUFFER_WIDTH GAME_HEIGHT = true)
    (h2 : (p.neighbor d).is_legal BUFFER_WIDTH GAME_HEIGHT = true) :
    (p.neighbor d).neighbor d.left.left = p := by
  rcases p with ⟨pc, pr⟩
  rcases d <;> simp [Position.neighbor, Dir.left]

/-- C9 witness: the theorem instantiated at the game's initial head
position and direction East. -/
theorem neighbor_opposite_cancel_witness :
    (Position.neighbor { col := 40, row := 10 } Dir.E).neighbor Dir.E.left.left
      = ({ col := 40, row := 10 } : Position) :=
  neighbor_opposite_cancel { col := 40, row := 10 } Dir.E (by decide) (by decide)

/-- C2 counterexample: starting from a freshly constructed game (counter
initialized to N = 3, not 0), the first N = 3 calls of countdown_complete
all return false — so it is not true exactly once in every N consecutive
calls. -/
theorem countdown_first_window :
    tick_result 0 = false ∧ tick_result 1 = false ∧ tick_result 2 = false := by decide

/-- C2 (amended): countdown_complete returns true exactly once in every
N + 1 = 4 consecutive calls (the k-th call from a fresh game returns true
precisely when k is congruent to 3 modulo 4, i.e. on calls 4, 8, 12, ...,
1-based). -/
theorem countdown_window (s : Nat) :
    ∃! j, j < UPDATE_FREQUENCY + 1 ∧ tick_result (s + j) = true := by
  refine ⟨3 - s % 4, ⟨?_, ?_⟩, ?_⟩
  · simp only [UPDATE_FREQUENCY]
    omega
  · rw [tick_result_eq]
    simp only [decide_eq_true_eq]
    omega
  · rintro y ⟨hy4, hyt⟩
    rw [tick_result_eq, decide_eq_true_eq] at hyt
    simp only [UPDATE_FREQUENCY] at hy4
    omega

/-- C7 (amended): while status = Over, exactly the raw S key code and the
lowercase unicode character s trigger reset; every other decoded key —
including the uppercase unicode character S — leaves the state unchanged. -/
theorem over_status_keys (g : SnakeGame) (k : DecodedKey) (hst : g.status = Status.Over) :
    ((k = DecodedKey.raw KeyCode.S ∨ k = DecodedKey.unicode 's') → g.key k = g.reset) ∧
    (k ≠ DecodedKey.raw KeyCode.S → k ≠ DecodedKey.unicode 's' → g.key k = g) := by
  constructor
  · rintro (rfl | rfl) <;> simp [SnakeGame.key, hst]
  · intro hn1 hn2
    rcases k with kc | c
    · rcases kc <;> first
        | exact absurd rfl hn1
        | simp [SnakeGame.key, hst]
    · have hcne : ¬(c = 's') := fun h => hn2 (by rw [h])
      simp [SnakeGame.key, hst, hcne]

/-- C7 counterexample: on a concrete Over state with score 5, submitting
the uppercase unicode character S leaves the score at 5, while a real
reset would zero it — so the uppercase S key does not trigger reset. -/
theorem capital_s_ignored :
    g_over.status = Status.Over ∧
    (g_over.key (DecodedKey.unicode 'S')).food_eaten = 5 ∧
    (g_over.reset).food_eaten = 0 := by decide

/-- C7 witness: the amended theorem instantiated at a concrete Over state
with a restart key and with an unrecognized key. -/
theorem over_status_keys_witness :
    g_over.key (DecodedKey.unicode 's') = g_over.reset ∧
    g_over.key (DecodedKey.unicode 'x') = g_over := by
  have h1 := over_status_keys g_over (DecodedKey.unicode 's') rfl
  have h2 := over_status_keys g_over (DecodedKey.unicode 'x') rfl
  exact ⟨h1.1 (Or.inr rfl), h2.2 (by decide) (by decide)⟩

/-- C5 (amended): after every call to reset, status = Normal, score = 0 and
no direction is pending, and every in-bounds cell EXCEPT the one at the
head-glyph position (10, 40) equals the corresponding cell of the board
built by new(); the head-glyph cell is never written by the parse and
retains its pre-reset value (Food right after new(), since new() pre-fills
the board with Food). -/
theorem reset_state (g : SnakeGame) (r c : Nat) (hr : r < 23) (hc : c < 80)
    (hne : ¬(r = 10 ∧ c = 40)) :
    (g.reset).status = Status.Normal ∧ (g.reset).score = 0 ∧ (g.reset).last_key = none ∧
    (g.reset).cells r c = SnakeGame.new.cells r c ∧
    (g.reset).cells 10 40 = g.cells 10 40 := by
  refine ⟨rfl, rfl, rfl, ?_, ?_⟩
  · rw [reset_cells, new_cells]
    obtain ⟨v, hv⟩ := Option.isSome_iff_exists.mp (parsedCell_isSome r c hr hc hne)
    rw [hv]
    rfl
  · rw [reset_cells, parsedCell_head]
    rfl

/-- C5 counterexample: a reachable run (East one step, West one step eating
the Food left under the initial head position, debug force-over, restart
key) reaches a reset whose board holds Empty at the head-glyph cell
(10, 40), while the board after new() holds Food there — so the board
after reset is not cell-for-cell equal to one fixed parsed map. -/
theorem reset_head_cell_differs :
    g_run.status = Status.Over ∧
    (g_run.key (DecodedKey.unicode 's')).cells 10 40 = Cell.Empty ∧
    SnakeGame.new.cells 10 40 = Cell.Food := by decide

/-- C5 witness: the amended theorem instantiated at the freshly constructed
game and the in-bounds cell (2, 3). -/
theorem reset_state_witness :
    (SnakeGame.new.reset).status = Status.Normal ∧ (SnakeGame.new.reset).score = 0 ∧
    (SnakeGame.new.reset).last_key = none ∧
    (SnakeGame.new.reset).cells 2 3 = SnakeGame.new.cells 2 3 ∧
    (SnakeGame.new.reset).cells 10 40 = SnakeGame.new.cells 10 40 :=
  reset_state SnakeGame.new 2 3 (by decide) (by decide) (by decide)

end BaremetalSnake
